import Mathlib

/-
Shallow embedding of the authorization and audit core of the
auto-ecole-platform backend (NestJS + Prisma), covering:

  - shared/enums/role.enum.ts                (Role)
  - auth/guards/roles.guard.ts               (RolesGuard.canActivate)
  - auth/guards/tenant.guard.ts              (TenantGuard.canActivate)
  - auth/strategies/jwt.strategy.ts          (JwtStrategy.validate)
  - auth/auth.service.ts                     (AuthService.validateUser)
  - audit/audit.service.ts                   (AuditService.log)
  - student/student.controller.ts            (StudentsController guard wiring)
  - student/student.service.ts               (findOne, update, addUsedMinutes)
  - student/dto/update-student.dto.ts        (UpdateStudentDto)

Databases are modelled as lists of rows; Prisma where-clauses are modelled
as explicit records of optional equality conditions, so that what is sent
to the storage layer is a first-class value.  JS string truthiness
(empty string and undefined are falsy) is modelled explicitly where the
source relies on it.  Prisma timestamp columns (createdAt / updatedAt)
are not touched by any of the modelled code paths and are omitted.
-/

/-- Roles from shared/enums/role.enum.ts (= Prisma UserRole). -/
inductive Role
  | ADMIN
  | SECRETARY
  | INSTRUCTOR
  | STUDENT
deriving DecidableEq

/-- Prisma enum LicenseType. -/
inductive LicenseType
  | B
  | AAC
  | CS
  | A1
  | A2
deriving DecidableEq

/-- Prisma enum StudentStatus. -/
inductive StudentStatus
  | PROSPECT
  | ANTS_PROCESSING
  | ACTIVE
  | EXAM_READY
  | LICENSE_OBTAINED
  | ARCHIVED
deriving DecidableEq

/-- A JS Date value, represented by the string it was parsed from. -/
structure DateV where
  raw : String
deriving DecidableEq

/-- Models the JS expression new Date(s). -/
def parseDate (s : String) : DateV := DateV.mk s

/-- A row of the Prisma Student model (columns used by the embedded code). -/
structure Student where
  id : String
  userId : String
  tenantId : String
  birthName : String
  firstName : String
  birthDate : DateV
  birthCity : String
  birthZipCode : Option String
  birthCountry : String
  address : String
  city : String
  zipCode : String
  phone : String
  neph : Option String
  ePhotoCode : Option String
  hasIdCard : Bool
  hasProofOfAddress : Bool
  hasAssr2 : Bool
  hasJdcCertificate : Bool
  hasCensusCertificate : Bool
  needsMedicalOpinion : Bool
  hasMedicalOpinion : Bool
  licenseType : LicenseType
  status : StudentStatus
  minutesPurchased : Int
  minutesUsed : Int
  guardianName : Option String
  guardianPhone : Option String
  guardianEmail : Option String
  guardianRelation : Option String
  archivedAt : Option DateV
deriving DecidableEq

/-- A row of the Prisma User model (columns used by the embedded code). -/
structure User where
  id : String
  email : String
  password : String
  role : Role
  tenantId : String
deriving DecidableEq

/-- Error taxonomy of the embedded code: the Nest exception classes thrown
by the source, each carrying its message. -/
inductive AppError
  | notFound (msg : String)
  | forbidden (msg : String)
  | conflict (msg : String)
  | unauthorized (msg : String)
deriving DecidableEq

/-- A Prisma StudentWhereUniqueInput: the where-clause actually sent to the
storage layer, one optional equality condition per unique column used by
the embedded code. -/
structure StudentWhere where
  id : Option String := none
  tenantId : Option String := none
  neph : Option String := none
deriving DecidableEq

/-- Row satisfaction for a where-clause: every present condition must hold. -/
def studentMatchesWhere (w : StudentWhere) (s : Student) : Bool :=
  (match w.id with
    | none => true
    | some v => s.id == v)
  && (match w.tenantId with
    | none => true
    | some v => s.tenantId == v)
  && (match w.neph with
    | none => true
    | some v => s.neph == some v)

/-- prisma.student.findUnique: first row of the store satisfying the
where-clause, if any. -/
def findUniqueStudent (w : StudentWhere) (db : List Student) : Option Student :=
  db.find? (fun s => studentMatchesWhere w s)

/-- prisma.user.findUnique on the email unique column. -/
def findUniqueUserByEmail (email : String) (db : List User) : Option User :=
  db.find? (fun u => u.email == email)

/-- prisma.student.update / prisma.user.update on a unique id: rewrite the
rows whose id matches. -/
def updateStudentRow (db : List Student) (id : String) (f : Student → Student) : List Student :=
  db.map (fun s => if s.id = id then f s else s)

def updateUserRow (db : List User) (id : String) (f : User → User) : List User :=
  db.map (fun u => if u.id = id then f u else u)

/-
auth/guards/roles.guard.ts

canActivate reads the roles metadata via reflector.getAllAndOverride,
whose result is either undefined (no Roles decorator on the handler or
the class) or the declared role array.  The source then runs
  if (!requiredRoles) return true;
  return requiredRoles.some((role) => user.role === role);
In JS, undefined is falsy but an array, even an empty one, is truthy, so
a declared empty array falls through to [].some, which is false.
-/

/-- RolesGuard.canActivate, roles.guard.ts lines 47 to 66.  The first
argument is the reflector result: none models undefined metadata, some rs
models a declared role array rs. -/
def RolesGuard.canActivate (requiredRoles : Option (List Role)) (userRole : Role) : Bool :=
  match requiredRoles with
  | none => true
  | some rs => rs.any (fun role => userRole == role)

/-- The data the JwtStrategy attaches to the request as req.user. -/
structure ReqUser where
  userId : String
  email : String
  tenantId : String
  role : Role
deriving DecidableEq

/-- TenantGuard.canActivate, tenant.guard.ts lines 56 to 71: JS
truthiness of user and of user.tenantId (empty string is falsy). -/
def TenantGuard.canActivate (user : Option ReqUser) : Bool :=
  match user with
  | none => false
  | some u => u.tenantId != ""

/-- The result Nest derives from a guard returning a boolean: false is
turned into a ForbiddenException with the default message. -/
def guardResult (b : Bool) : Except AppError Unit :=
  if b then Except.ok () else Except.error (AppError.forbidden "Forbidden resource")

/-- Decoded JWT payload (jwt.strategy.ts). -/
structure JwtPayload where
  sub : String
  tenantId : String
  role : String
  iat : Option Int := none
  exp : Option Int := none
deriving DecidableEq

/-- The projection of a User row that AuthService.validateUser selects. -/
structure ValidatedUser where
  id : String
  email : String
  role : Role
  tenantId : String
deriving DecidableEq

/-- AuthService.validateUser, auth.service.ts lines 202 to 212:
prisma.user.findUnique on the id with a select of id, email, role,
tenantId. -/
def AuthService.validateUser (userId : String) (users : List User) : Option ValidatedUser :=
  (users.find? (fun u => u.id == userId)).map
    (fun u => ValidatedUser.mk u.id u.email u.role u.tenantId)

/-- JwtStrategy.validate, jwt.strategy.ts lines 68 to 89: called only after
Passport has verified signature and expiry; re-validates the subject
against the user store and builds req.user from the freshly read row. -/
def JwtStrategy.validate (payload : JwtPayload) (users : List User) : Except AppError ReqUser :=
  match AuthService.validateUser payload.sub users with
  | none => Except.error (AppError.unauthorized "Utilisateur invalide ou supprimé")
  | some user => Except.ok (ReqUser.mk user.id user.email user.tenantId user.role)

/-- The guard classes that exist in the repository. -/
inductive GuardKind
  | jwtAuth
  | tenant
  | roles
deriving DecidableEq

/-- Nest evaluates the guards of a UseGuards list in declaration order and
stops at the first failure. -/
def runGuardChain (guards : List GuardKind) (evalGuard : GuardKind → Bool) : Bool :=
  match guards with
  | [] => true
  | g :: rest => if evalGuard g then runGuardChain rest evalGuard else false

/-- The guard list declared on StudentsController (student.controller.ts
lines 40 to 42): UseGuards(JwtAuthGuard, RolesGuard). -/
def StudentsController.guards : List GuardKind :=
  [GuardKind.jwtAuth, GuardKind.roles]

/-- The class-level Roles declaration on StudentsController:
Roles(Role.ADMIN, Role.SECRETARY). -/
def StudentsController.classRoles : List Role :=
  [Role.ADMIN, Role.SECRETARY]

/-
audit/audit.service.ts
-/

/-- A free-form JSON metadata value as used in audit log metadata. -/
inductive MetaVal
  | str (s : String)
  | num (n : Int)
  | bool (b : Bool)
  | null
deriving DecidableEq

/-- AuditLogData, the input interface of AuditService.log. -/
structure AuditLogData where
  tenantId : String
  actorUserId : String
  action : String
  entityType : String
  entityId : String
  metadata : Option (List (String × MetaVal)) := none
deriving DecidableEq

/-- A row of the Prisma AuditLog model as inserted by AuditService.log. -/
structure AuditRecord where
  tenantId : String
  actorUserId : String
  action : String
  entityType : String
  entityId : String
  metadata : List (String × MetaVal)
deriving DecidableEq

/-- A line written to the operational logger (Nest Logger): either the
stdout audit line written on success, or the error line written when the
insert fails. -/
inductive OpLogLine
  | audit (action entityType entityId tenantId actorUserId timestamp : String)
  | err (msg action entityType entityId : String)
deriving DecidableEq

/-- The audit store together with the operational logger output. -/
structure AuditState where
  store : List AuditRecord
  logLines : List OpLogLine
deriving DecidableEq

/-- Outcome of the prisma.auditLog.create insert attempt: the underlying
store either accepts the row or fails with some error message. -/
inductive InsertOutcome
  | success
  | failure (msg : String)
deriving DecidableEq

/-- The try-block of AuditService.log (audit.service.ts lines 56 to 79):
insert the record, then write the stdout audit line; a failing insert
raises.  The now argument is the clock value used for the stdout line. -/
def AuditService.logAttempt (data : AuditLogData) (outcome : InsertOutcome)
    (now : String) (st : AuditState) : Except String AuditState :=
  match outcome with
  | InsertOutcome.success =>
      Except.ok
        { store := st.store ++
            [{ tenantId := data.tenantId
               actorUserId := data.actorUserId
               action := data.action
               entityType := data.entityType
               entityId := data.entityId
               metadata := data.metadata.getD [] }]
          logLines := st.logLines ++
            [OpLogLine.audit data.action data.entityType data.entityId
              data.tenantId data.actorUserId now] }
  | InsertOutcome.failure msg => Except.error msg

/-- AuditService.log, audit.service.ts lines 55 to 92: the try-block above
wrapped in the catch that reports the failure to the operational logger
and swallows it, so the function always returns normally. -/
def AuditService.log (data : AuditLogData) (outcome : InsertOutcome)
    (now : String) (st : AuditState) : AuditState :=
  match AuditService.logAttempt data outcome now st with
  | Except.ok st2 => st2
  | Except.error msg =>
      { st with logLines := st.logLines ++
          [OpLogLine.err ("Failed to create audit log: " ++ msg)
            data.action data.entityType data.entityId] }

/-- The AuditAction enum entry used by the hours mutations. -/
def AuditAction.STUDENT_HOURS_UPDATED : String := "STUDENT_HOURS_UPDATED"

/-
student/student.service.ts
-/

/-- The where-clause findOne sends to the storage layer
(student.service.ts line 144: where chunk of the findUnique call, built
from the route id only). -/
def StudentsService.findOneWhere (id : String) : StudentWhere :=
  { id := some id }

/-- StudentsService.findOne, student.service.ts lines 142 to 166: fetch by
id alone, throw NotFoundException when absent, then compare the fetched
row against the tenant and throw ForbiddenException on mismatch. -/
def StudentsService.findOne (id : String) (tenantId : String)
    (students : List Student) : Except AppError Student :=
  match findUniqueStudent (StudentsService.findOneWhere id) students with
  | none => Except.error (AppError.notFound ("Élève #" ++ id ++ " introuvable"))
  | some student =>
      if student.tenantId ≠ tenantId then
        Except.error (AppError.forbidden "Accès interdit à cette ressource")
      else
        Except.ok student

/-- StudentsService.addUsedMinutes, student.service.ts lines 406 to 446.
Returns the value returned to the caller together with the student store
and the audit state after the call. -/
def StudentsService.addUsedMinutes (id : String) (minutes : Int)
    (tenantId : String) (actorUserId : String)
    (students : List Student) (auditSt : AuditState)
    (outcome : InsertOutcome) (now : String) :
    Except AppError Student × List Student × AuditState :=
  match StudentsService.findOne id tenantId students with
  | Except.error e => (Except.error e, students, auditSt)
  | Except.ok student =>
      let newUsedMinutes := student.minutesUsed + minutes
      if newUsedMinutes > student.minutesPurchased then
        (Except.error (AppError.conflict
            ("Heures insuffisantes. Disponibles: "
              ++ toString (student.minutesPurchased - student.minutesUsed)
              ++ " min, Demandées: " ++ toString minutes ++ " min")),
          students, auditSt)
      else
        let updatedStudent := { student with minutesUsed := newUsedMinutes }
        let students2 := updateStudentRow students id
          (fun s => { s with minutesUsed := newUsedMinutes })
        let auditSt2 := AuditService.log
          { tenantId := tenantId
            actorUserId := actorUserId
            action := AuditAction.STUDENT_HOURS_UPDATED
            entityType := "Student"
            entityId := id
            metadata := some
              [("studentName", MetaVal.str (student.firstName ++ " " ++ student.birthName)),
               ("type", MetaVal.str "CONSUMPTION"),
               ("minutesUsed", MetaVal.num minutes),
               ("previousMinutesUsed", MetaVal.num student.minutesUsed),
               ("newMinutesUsed", MetaVal.num newUsedMinutes)] }
          outcome now auditSt
        (Except.ok updatedStudent, students2, auditSt2)

/-
student/dto/update-student.dto.ts: PartialType(CreateStudentDto) plus the
archivedAt field.  Every CreateStudentDto field becomes optional; none is
absent, some v is a provided value.  archivedAt is string or null when
provided, so it is doubly optional.
-/

/-- UpdateStudentDto, update-student.dto.ts lines 11 to 20. -/
structure UpdateStudentDto where
  birthName : Option String := none
  firstName : Option String := none
  birthDate : Option String := none
  birthCity : Option String := none
  birthZipCode : Option String := none
  birthCountry : Option String := none
  address : Option String := none
  city : Option String := none
  zipCode : Option String := none
  phone : Option String := none
  email : Option String := none
  password : Option String := none
  neph : Option String := none
  ePhotoCode : Option String := none
  hasIdCard : Option Bool := none
  hasProofOfAddress : Option Bool := none
  hasAssr2 : Option Bool := none
  hasJdcCertificate : Option Bool := none
  hasCensusCertificate : Option Bool := none
  needsMedicalOpinion : Option Bool := none
  hasMedicalOpinion : Option Bool := none
  licenseType : Option LicenseType := none
  status : Option StudentStatus := none
  minutesPurchased : Option Int := none
  guardianName : Option String := none
  guardianPhone : Option String := none
  guardianEmail : Option String := none
  guardianRelation : Option String := none
  archivedAt : Option (Option String) := none
deriving DecidableEq

/-- JS truthiness of an optional string: undefined and the empty string
are falsy. -/
def strTruthy (o : Option String) : Bool :=
  match o with
  | none => false
  | some s => s ≠ ""

/-- The Prisma StudentUpdateInput that StudentsService.update builds
(student.service.ts lines 226 to 253): the spread of the dto minus email,
password, archivedAt, birthDate and neph, then neph when it is not
undefined, birthDate parsed when truthy, and archivedAt parsed or null
when not undefined. -/
structure StudentUpdateData where
  birthName : Option String := none
  firstName : Option String := none
  birthCity : Option String := none
  birthZipCode : Option String := none
  birthCountry : Option String := none
  address : Option String := none
  city : Option String := none
  zipCode : Option String := none
  phone : Option String := none
  ePhotoCode : Option String := none
  hasIdCard : Option Bool := none
  hasProofOfAddress : Option Bool := none
  hasAssr2 : Option Bool := none
  hasJdcCertificate : Option Bool := none
  hasCensusCertificate : Option Bool := none
  needsMedicalOpinion : Option Bool := none
  hasMedicalOpinion : Option Bool := none
  licenseType : Option LicenseType := none
  status : Option StudentStatus := none
  minutesPurchased : Option Int := none
  guardianName : Option String := none
  guardianPhone : Option String := none
  guardianEmail : Option String := none
  guardianRelation : Option String := none
  neph : Option String := none
  birthDate : Option DateV := none
  archivedAt : Option (Option DateV) := none
deriving DecidableEq

/-- Builds the update data from the dto, student.service.ts lines 226 to
253.  The otherData spread carries every dto field except email, password,
archivedAt, birthDate and neph; neph is added whenever it is not
undefined; birthDate is parsed when truthy; archivedAt, when not
undefined, is parsed when truthy and null otherwise. -/
def buildStudentData (dto : UpdateStudentDto) : StudentUpdateData :=
  { birthName := dto.birthName
    firstName := dto.firstName
    birthCity := dto.birthCity
    birthZipCode := dto.birthZipCode
    birthCountry := dto.birthCountry
    address := dto.address
    city := dto.city
    zipCode := dto.zipCode
    phone := dto.phone
    ePhotoCode := dto.ePhotoCode
    hasIdCard := dto.hasIdCard
    hasProofOfAddress := dto.hasProofOfAddress
    hasAssr2 := dto.hasAssr2
    hasJdcCertificate := dto.hasJdcCertificate
    hasCensusCertificate := dto.hasCensusCertificate
    needsMedicalOpinion := dto.needsMedicalOpinion
    hasMedicalOpinion := dto.hasMedicalOpinion
    licenseType := dto.licenseType
    status := dto.status
    minutesPurchased := dto.minutesPurchased
    guardianName := dto.guardianName
    guardianPhone := dto.guardianPhone
    guardianEmail := dto.guardianEmail
    guardianRelation := dto.guardianRelation
    neph := dto.neph
    birthDate :=
      match dto.birthDate with
      | some s => if s ≠ "" then some (parseDate s) else none
      | none => none
    archivedAt :=
      match dto.archivedAt with
      | none => none
      | some v =>
          some (match v with
            | some s => if s ≠ "" then some (parseDate s) else none
            | none => none) }

/-- Applies a Prisma StudentUpdateInput to a row: present conditions
overwrite the column, absent ones leave it alone.  Columns the input
cannot carry (id, userId, tenantId, minutesUsed) are untouched. -/
def applyStudentData (d : StudentUpdateData) (s : Student) : Student :=
  { s with
    birthName := d.birthName.getD s.birthName
    firstName := d.firstName.getD s.firstName
    birthCity := d.birthCity.getD s.birthCity
    birthZipCode := match d.birthZipCode with
      | some v => some v
      | none => s.birthZipCode
    birthCountry := d.birthCountry.getD s.birthCountry
    address := d.address.getD s.address
    city := d.city.getD s.city
    zipCode := d.zipCode.getD s.zipCode
    phone := d.phone.getD s.phone
    ePhotoCode := match d.ePhotoCode with
      | some v => some v
      | none => s.ePhotoCode
    hasIdCard := d.hasIdCard.getD s.hasIdCard
    hasProofOfAddress := d.hasProofOfAddress.getD s.hasProofOfAddress
    hasAssr2 := d.hasAssr2.getD s.hasAssr2
    hasJdcCertificate := d.hasJdcCertificate.getD s.hasJdcCertificate
    hasCensusCertificate := d.hasCensusCertificate.getD s.hasCensusCertificate
    needsMedicalOpinion := d.needsMedicalOpinion.getD s.needsMedicalOpinion
    hasMedicalOpinion := d.hasMedicalOpinion.getD s.hasMedicalOpinion
    licenseType := d.licenseType.getD s.licenseType
    status := d.status.getD s.status
    minutesPurchased := d.minutesPurchased.getD s.minutesPurchased
    guardianName := match d.guardianName with
      | some v => some v
      | none => s.guardianName
    guardianPhone := match d.guardianPhone with
      | some v => some v
      | none => s.guardianPhone
    guardianEmail := match d.guardianEmail with
      | some v => some v
      | none => s.guardianEmail
    guardianRelation := match d.guardianRelation with
      | some v => some v
      | none => s.guardianRelation
    neph := match d.neph with
      | some v => some v
      | none => s.neph
    birthDate := d.birthDate.getD s.birthDate
    archivedAt := match d.archivedAt with
      | some v => v
      | none => s.archivedAt }

/-- The email step of StudentsService.update, student.service.ts lines 179
to 204: when the dto email is truthy, refetch the student by id, check
that no other user holds the email, and update the email of the linked
user row. -/
def StudentsService.updateEmailStep (id : String) (dto : UpdateStudentDto)
    (students : List Student) (users : List User) : Except AppError (List User) :=
  match dto.email with
  | none => Except.ok users
  | some e =>
      if e ≠ "" then
        match findUniqueStudent { id := some id } students with
        | none => Except.error (AppError.notFound ("Élève #" ++ id ++ " introuvable"))
        | some student =>
            match findUniqueUserByEmail e users with
            | some existingUser =>
                if existingUser.id ≠ student.userId then
                  Except.error (AppError.conflict "Cet email est déjà utilisé.")
                else
                  Except.ok (updateUserRow users student.userId (fun u => { u with email := e }))
            | none =>
                Except.ok (updateUserRow users student.userId (fun u => { u with email := e }))
      else Except.ok users

/-- The NEPH uniqueness check of StudentsService.update, student.service.ts
lines 215 to 223: when the dto neph is truthy, reject it if another
student row already holds it. -/
def StudentsService.updateNephCheck (id : String) (dto : UpdateStudentDto)
    (students : List Student) : Except AppError Unit :=
  match dto.neph with
  | none => Except.ok ()
  | some n =>
      if n ≠ "" then
        match findUniqueStudent { neph := some n } students with
        | some existingNeph =>
            if existingNeph.id ≠ id then
              Except.error (AppError.conflict "Ce numéro NEPH est déjà utilisé.")
            else Except.ok ()
        | none => Except.ok ()
      else Except.ok ()

/-- StudentsService.update, student.service.ts lines 171 to 268: tenant
check through findOne, then the email step, the NEPH check, and the
student row update built exclusively from the dto.  Returns the updated
row together with both stores. -/
def StudentsService.update (id : String) (dto : UpdateStudentDto)
    (tenantId : String) (students : List Student) (users : List User) :
    Except AppError (Student × List Student × List User) :=
  match StudentsService.findOne id tenantId students with
  | Except.error e => Except.error e
  | Except.ok student0 =>
      match StudentsService.updateEmailStep id dto students users with
      | Except.error e => Except.error e
      | Except.ok users2 =>
          match StudentsService.updateNephCheck id dto students with
          | Except.error e => Except.error e
          | Except.ok _ =>
              let d := buildStudentData dto
              Except.ok (applyStudentData d student0,
                updateStudentRow students id (applyStudentData d), users2)

/-
Sample rows used to instantiate the theorems on concrete inputs.
-/

/-- A concrete student of tenant-a with 1200 purchased and 300 used
minutes (900 remaining). -/
def sampleStudent : Student :=
  { id := "s1"
    userId := "u1"
    tenantId := "tenant-a"
    birthName := "DUPONT"
    firstName := "Marie"
    birthDate := parseDate "2005-03-15"
    birthCity := "Paris"
    birthZipCode := some "75001"
    birthCountry := "FRANCE"
    address := "12 rue de la Republique"
    city := "Lyon"
    zipCode := "69001"
    phone := "0612345678"
    neph := some "123456789012"
    ePhotoCode := none
    hasIdCard := true
    hasProofOfAddress := false
    hasAssr2 := false
    hasJdcCertificate := false
    hasCensusCertificate := false
    needsMedicalOpinion := false
    hasMedicalOpinion := false
    licenseType := LicenseType.B
    status := StudentStatus.ACTIVE
    minutesPurchased := 1200
    minutesUsed := 300
    guardianName := none
    guardianPhone := none
    guardianEmail := none
    guardianRelation := none
    archivedAt := none }

/-- The same entity identifier owned by tenant-b: the row a tenant-a
principal may try to read by id. -/
def sampleStudentB : Student :=
  { sampleStudent with userId := "u2", tenantId := "tenant-b", neph := some "999999999012" }

/-- The user row linked to sampleStudent. -/
def sampleUser : User :=
  { id := "u1"
    email := "marie.dupont@example.com"
    password := "hashed"
    role := Role.STUDENT
    tenantId := "tenant-a" }

/-- A concrete dto touching identity, status and purchased minutes. -/
def sampleDto : UpdateStudentDto :=
  { firstName := some "Jeanne"
    status := some StudentStatus.EXAM_READY
    minutesPurchased := some 1500 }

/-
Helper lemmas shared by several developments.
-/

/-- findOne reduces to the notFound error when the storage query returns
no row. -/
theorem findOne_of_lookup_none {id tenantId : String} {students : List Student}
    (h : findUniqueStudent (StudentsService.findOneWhere id) students = none) :
    StudentsService.findOne id tenantId students =
      Except.error (AppError.notFound ("Élève #" ++ id ++ " introuvable")) := by
  unfold StudentsService.findOne
  rw [h]

/-- findOne reduces to the post-hoc tenant comparison when the storage
query returns a row. -/
theorem findOne_of_lookup_some {id tenantId : String} {students : List Student}
    {st : Student}
    (h : findUniqueStudent (StudentsService.findOneWhere id) students = some st) :
    StudentsService.findOne id tenantId students =
      (if st.tenantId ≠ tenantId then
        Except.error (AppError.forbidden "Accès interdit à cette ressource")
      else Except.ok st) := by
  unfold StudentsService.findOne
  rw [h]

/-
Claim theorems.
-/

/-- C3 counterexample: the claim says an operation whose declared Role
Requirement is the empty set authorizes every principal, but a declared
empty role array is truthy in JS, falls through the undefined test of
roles.guard.ts line 55, and [].some yields false, so RolesGuard denies an
ADMIN principal on such an operation. -/
theorem c3_counterexample_declared_empty_denies :
    RolesGuard.canActivate (some []) Role.ADMIN = false := rfl

/-- C3 (amended): when no Role Requirement is declared at all (the roles
metadata is undefined), RolesGuard.canActivate authorizes every principal
regardless of role; but an operation that declares a literally empty role
array is denied for every principal. -/
theorem c3_empty_requirement_default_open :
    (∀ r : Role, RolesGuard.canActivate none r = true) ∧
    (∀ r : Role, RolesGuard.canActivate (some []) r = false) :=
  ⟨fun _ => rfl, fun _ => rfl⟩

/-- C4: for a declared non-empty Role Requirement rs, RolesGuard
authorizes a principal iff its role is a member of rs (OR semantics); in
particular SECRETARY against ADMIN-or-SECRETARY is allowed, and
INSTRUCTOR against ADMIN-only is denied, which Nest surfaces as a
ForbiddenException (authorization-class error). -/
theorem c4_nonempty_requirement_or_semantics :
    (∀ (rs : List Role) (r : Role), rs ≠ [] →
      (RolesGuard.canActivate (some rs) r = true ↔ r ∈ rs)) ∧
    guardResult (RolesGuard.canActivate
      (some [Role.ADMIN, Role.SECRETARY]) Role.SECRETARY) = Except.ok () ∧
    guardResult (RolesGuard.canActivate (some [Role.ADMIN]) Role.INSTRUCTOR) =
      Except.error (AppError.forbidden "Forbidden resource") := by
  refine ⟨?_, rfl, rfl⟩
  intro rs r _
  simp [RolesGuard.canActivate, List.any_eq_true, beq_iff_eq]

/-- C4 witness: the membership characterization applied to the concrete
requirement ADMIN-only and the concrete role INSTRUCTOR. -/
theorem c4_witness :
    ([Role.ADMIN] ≠ ([] : List Role)) ∧
    (RolesGuard.canActivate (some [Role.ADMIN]) Role.INSTRUCTOR = true ↔
      Role.INSTRUCTOR ∈ [Role.ADMIN]) :=
  ⟨by decide, c4_nonempty_requirement_or_semantics.1 [Role.ADMIN] Role.INSTRUCTOR (by decide)⟩

/-- C6: when the credential was verified but the subject no longer exists
in the user store (validateUser yields nothing), JwtStrategy.validate
fails with the UnauthorizedException of jwt.strategy.ts line 75 and never
produces a principal. -/
theorem c6_deleted_subject_unauthorized :
    ∀ (payload : JwtPayload) (users : List User),
      AuthService.validateUser payload.sub users = none →
      JwtStrategy.validate payload users =
        Except.error (AppError.unauthorized "Utilisateur invalide ou supprimé") ∧
      ∀ p : ReqUser, JwtStrategy.validate payload users ≠ Except.ok p := by
  intro payload users h
  unfold JwtStrategy.validate
  rw [h]
  exact ⟨rfl, fun p hc => Except.noConfusion hc⟩

/-- C6 witness: a payload for a deleted subject against an empty user
store. -/
theorem c6_witness :
    AuthService.validateUser "ghost" [] = none ∧
    JwtStrategy.validate { sub := "ghost", tenantId := "tenant-a", role := "ADMIN" } [] =
      Except.error (AppError.unauthorized "Utilisateur invalide ou supprimé") :=
  ⟨rfl,
    (c6_deleted_subject_unauthorized
      { sub := "ghost", tenantId := "tenant-a", role := "ADMIN" } [] rfl).1⟩

/-- C8: the guard chain declared on StudentsController is JwtAuthGuard
then RolesGuard only; the tenant-scope stage (TenantGuard) is not part of
it, and the outcome of the chain on these routes does not depend on the
tenant check at all, contradicting the claim that the tenant-scope stage
runs on every guarded operation. -/
theorem c8_students_controller_has_no_tenant_stage :
    StudentsController.guards = [GuardKind.jwtAuth, GuardKind.roles] ∧
    GuardKind.tenant ∉ StudentsController.guards ∧
    ∀ b1 b2 : Bool,
      runGuardChain StudentsController.guards
        (fun k => match k with
          | GuardKind.jwtAuth => b1
          | GuardKind.tenant => false
          | GuardKind.roles => b2) =
      runGuardChain StudentsController.guards
        (fun k => match k with
          | GuardKind.jwtAuth => b1
          | GuardKind.tenant => true
          | GuardKind.roles => b2) := by
  refine ⟨rfl, by decide, ?_⟩
  intro b1 b2
  cases b1 <;> cases b2 <;> rfl

/-- C7: AuditService.log never raises to its caller: the insert attempt
does fail on a failing store, but the catch turns it into an operational
error line and leaves the audit store untouched; and the value a business
mutation (addUsedMinutes) returns to its caller, as well as the student
store it leaves behind, are identical whether the audit insert fails or
succeeds. -/
theorem c7_audit_failure_swallowed :
    (∀ (data : AuditLogData) (now : String) (st : AuditState) (msg : String),
      AuditService.logAttempt data (InsertOutcome.failure msg) now st = Except.error msg ∧
      AuditService.log data (InsertOutcome.failure msg) now st =
        { st with logLines := st.logLines ++
            [OpLogLine.err ("Failed to create audit log: " ++ msg)
              data.action data.entityType data.entityId] }) ∧
    (∀ (id : String) (minutes : Int) (tenantId actorUserId : String)
      (students : List Student) (auditSt : AuditState) (now msg : String),
      (StudentsService.addUsedMinutes id minutes tenantId actorUserId students auditSt
          (InsertOutcome.failure msg) now).1 =
        (StudentsService.addUsedMinutes id minutes tenantId actorUserId students auditSt
          InsertOutcome.success now).1 ∧
      (StudentsService.addUsedMinutes id minutes tenantId actorUserId students auditSt
          (InsertOutcome.failure msg) now).2.1 =
        (StudentsService.addUsedMinutes id minutes tenantId actorUserId students auditSt
          InsertOutcome.success now).2.1) := by
  constructor
  · intro data now st msg
    exact ⟨rfl, rfl⟩
  · intro id minutes tenantId actorUserId students auditSt now msg
    unfold StudentsService.addUsedMinutes
    cases StudentsService.findOne id tenantId students with
    | error e => exact ⟨rfl, rfl⟩
    | ok student =>
        by_cases h : student.minutesUsed + minutes > student.minutesPurchased
        · simp [h]
        · simp [h]

/-- C1: a read by identifier from another tenant never yields the row: a
successful findOne only returns a row of the requesting tenant; a missing
identifier yields the NotFoundException, an existing identifier of a
foreign tenant yields the ForbiddenException, and the two signals are
distinct constructors of the error taxonomy. -/
theorem c1_findOne_cross_tenant_fails :
    ∀ (students : List Student) (id tidA : String),
      (∀ s : Student, StudentsService.findOne id tidA students = Except.ok s →
        s.tenantId = tidA) ∧
      (findUniqueStudent (StudentsService.findOneWhere id) students = none →
        StudentsService.findOne id tidA students =
          Except.error (AppError.notFound ("Élève #" ++ id ++ " introuvable"))) ∧
      (∀ s : Student, findUniqueStudent (StudentsService.findOneWhere id) students = some s →
        s.tenantId ≠ tidA →
        StudentsService.findOne id tidA students =
          Except.error (AppError.forbidden "Accès interdit à cette ressource")) ∧
      (∀ m1 m2 : String, AppError.forbidden m1 ≠ AppError.notFound m2) := by
  intro students id tidA
  refine ⟨?_, ?_, ?_, ?_⟩
  · intro s hok
    cases hf : findUniqueStudent (StudentsService.findOneWhere id) students with
    | none =>
        rw [findOne_of_lookup_none hf] at hok
        exact Except.noConfusion hok
    | some st =>
        rw [findOne_of_lookup_some hf] at hok
        by_cases ht : st.tenantId ≠ tidA
        · rw [if_pos ht] at hok
          exact Except.noConfusion hok
        · rw [if_neg ht] at hok
          injection hok with h2
          subst h2
          exact not_not.mp ht
  · intro h
    exact findOne_of_lookup_none h
  · intro s hf hne
    rw [findOne_of_lookup_some hf, if_pos hne]
  · intro m1 m2 h
    exact AppError.noConfusion h

/-- C1 witness: a tenant-a principal reading the identifier s1, which
exists but belongs to tenant-b, gets the ForbiddenException; reading a
missing identifier gets the NotFoundException. -/
theorem c1_witness :
    StudentsService.findOne "s1" "tenant-a" [sampleStudentB] =
      Except.error (AppError.forbidden "Accès interdit à cette ressource") ∧
    StudentsService.findOne "missing" "tenant-a" [sampleStudentB] =
      Except.error (AppError.notFound ("Élève #" ++ "missing" ++ " introuvable")) :=
  ⟨(c1_findOne_cross_tenant_fails [sampleStudentB] "s1" "tenant-a").2.2.1
      sampleStudentB rfl (by decide),
    (c1_findOne_cross_tenant_fails [sampleStudentB] "missing" "tenant-a").2.1 rfl⟩

/-- C2 counterexample: the where-clause findOne sends to the storage
layer for identifier s1 carries no tenantId condition at all, and the
storage layer can and does return a tenant-b row to a tenant-a request;
the tenant comparison therefore is not part of the query, contradicting
the claim. -/
theorem c2_counterexample_where_clause_lacks_tenant :
    (StudentsService.findOneWhere "s1").tenantId ≠ some "tenant-a" ∧
    (StudentsService.findOneWhere "s1").tenantId = none ∧
    findUniqueStudent (StudentsService.findOneWhere "s1") [sampleStudentB] =
      some sampleStudentB ∧
    sampleStudentB.tenantId ≠ "tenant-a" := by
  refine ⟨by decide, rfl, rfl, by decide⟩

/-- C2 (amended): the single-entity read queries the store by id alone
(the where-clause holds the id condition and no tenantId condition); the
tenant equality is enforced as a post-hoc check on the fetched row, which
still never lets a foreign row be returned: a fetched row is returned iff
its tenantId equals the principal tenant, and otherwise the call fails
with the ForbiddenException. -/
theorem c2_amended_post_hoc_tenant_check :
    ∀ (id tid : String) (students : List Student),
      (StudentsService.findOneWhere id).tenantId = none ∧
      (StudentsService.findOneWhere id).id = some id ∧
      (∀ s : Student, findUniqueStudent (StudentsService.findOneWhere id) students = some s →
        (s.tenantId = tid → StudentsService.findOne id tid students = Except.ok s) ∧
        (s.tenantId ≠ tid → StudentsService.findOne id tid students =
          Except.error (AppError.forbidden "Accès interdit à cette ressource"))) := by
  intro id tid students
  refine ⟨rfl, rfl, ?_⟩
  intro s hf
  constructor
  · intro he
    rw [findOne_of_lookup_some hf, if_neg (fun hne => hne he)]
  · intro hne
    rw [findOne_of_lookup_some hf, if_pos hne]

/-- C2 witness: the amended statement applied to the concrete tenant-b
row behind identifier s1, read by a tenant-a principal. -/
theorem c2_witness :
    (StudentsService.findOneWhere "s1").tenantId = none ∧
    StudentsService.findOne "s1" "tenant-a" [sampleStudentB] =
      Except.error (AppError.forbidden "Accès interdit à cette ressource") :=
  ⟨(c2_amended_post_hoc_tenant_check "s1" "tenant-a" [sampleStudentB]).1,
    ((c2_amended_post_hoc_tenant_check "s1" "tenant-a" [sampleStudentB]).2.2
      sampleStudentB rfl).2 (by decide)⟩

/-- C5: for a student of the tenant whose state satisfies used less than
or equal to purchased, addUsedMinutes either succeeds, the new used value
being the old plus the argument and still bounded by purchased, or, when
the sum would exceed purchased, returns the ConflictException verbatim
and leaves the student store and the audit state exactly as they were. -/
theorem c5_consume_invariant :
    ∀ (id : String) (minutes : Int) (tid actor : String) (students : List Student)
      (auditSt : AuditState) (outcome : InsertOutcome) (now : String) (s0 : Student),
      StudentsService.findOne id tid students = Except.ok s0 →
      s0.minutesUsed ≤ s0.minutesPurchased →
      ((s0.minutesUsed + minutes ≤ s0.minutesPurchased →
        ∃ s1 : Student,
          (StudentsService.addUsedMinutes id minutes tid actor students auditSt outcome now).1 =
            Except.ok s1 ∧
          s1.minutesUsed = s0.minutesUsed + minutes ∧
          s1.minutesUsed ≤ s1.minutesPurchased) ∧
      (s0.minutesPurchased < s0.minutesUsed + minutes →
        StudentsService.addUsedMinutes id minutes tid actor students auditSt outcome now =
          (Except.error (AppError.conflict
              ("Heures insuffisantes. Disponibles: "
                ++ toString (s0.minutesPurchased - s0.minutesUsed)
                ++ " min, Demandées: " ++ toString minutes ++ " min")),
            students, auditSt))) := by
  intro id minutes tid actor students auditSt outcome now s0 hfind _
  unfold StudentsService.addUsedMinutes
  rw [hfind]
  constructor
  · intro hle
    have hnot : ¬ (s0.minutesUsed + minutes > s0.minutesPurchased) := not_lt.mpr hle
    refine ⟨{ s0 with minutesUsed := s0.minutesUsed + minutes }, ?_, rfl, ?_⟩
    · simp [hnot]
    · simpa using hle
  · intro hgt
    simp [hgt]

/-- C5 witness (Scenario D): the sample student has 900 minutes
remaining; consuming 1000 yields the ConflictException and leaves both
the student store and the audit state unchanged. -/
theorem c5_witness :
    StudentsService.findOne "s1" "tenant-a" [sampleStudent] = Except.ok sampleStudent ∧
    sampleStudent.minutesUsed ≤ sampleStudent.minutesPurchased ∧
    StudentsService.addUsedMinutes "s1" 1000 "tenant-a" "admin-1" [sampleStudent]
        (AuditState.mk [] []) InsertOutcome.success "t0" =
      (Except.error (AppError.conflict
          ("Heures insuffisantes. Disponibles: "
            ++ toString (sampleStudent.minutesPurchased - sampleStudent.minutesUsed)
            ++ " min, Demandées: " ++ toString (1000 : Int) ++ " min")),
        [sampleStudent], AuditState.mk [] []) :=
  ⟨rfl, by decide,
    (c5_consume_invariant "s1" 1000 "tenant-a" "admin-1" [sampleStudent]
        (AuditState.mk [] []) InsertOutcome.success "t0" sampleStudent rfl
        (by decide)).2 (by decide)⟩

/-- C10: addUsedMinutes places no lower bound on the minutes argument:
for every integer, zero and negative values included, the call succeeds
exactly under the upper-bound test, stores the sum as the new used value
and returns the updated row. -/
theorem c10_no_lower_bound_on_minutes :
    ∀ (id : String) (minutes : Int) (tid actor : String) (students : List Student)
      (auditSt : AuditState) (outcome : InsertOutcome) (now : String) (s0 : Student),
      StudentsService.findOne id tid students = Except.ok s0 →
      s0.minutesUsed + minutes ≤ s0.minutesPurchased →
      (StudentsService.addUsedMinutes id minutes tid actor students auditSt outcome now).1 =
        Except.ok { s0 with minutesUsed := s0.minutesUsed + minutes } ∧
      (StudentsService.addUsedMinutes id minutes tid actor students auditSt outcome now).2.1 =
        updateStudentRow students id
          (fun s => { s with minutesUsed := s0.minutesUsed + minutes }) := by
  intro id minutes tid actor students auditSt outcome now s0 hfind hle
  have hnot : ¬ (s0.minutesUsed + minutes > s0.minutesPurchased) := not_lt.mpr hle
  unfold StudentsService.addUsedMinutes
  rw [hfind]
  constructor
  · simp [hnot]
  · simp [hnot]

/-- C10 witness: a negative consumption of minus 400 minutes on the
sample student (300 used) is accepted and drives the stored used value to
minus 100. -/
theorem c10_witness :
    (StudentsService.addUsedMinutes "s1" (-400) "tenant-a" "admin-1" [sampleStudent]
        (AuditState.mk [] []) InsertOutcome.success "t0").1 =
      Except.ok { sampleStudent with minutesUsed := sampleStudent.minutesUsed + (-400) } ∧
    sampleStudent.minutesUsed + (-400) < 0 :=
  ⟨(c10_no_lower_bound_on_minutes "s1" (-400) "tenant-a" "admin-1" [sampleStudent]
      (AuditState.mk [] []) InsertOutcome.success "t0" sampleStudent rfl (by decide)).1,
    by decide⟩

/-- The columns of a student row the update input cannot carry, bundled
for the frame statement. -/
def studentKeyProj (s : Student) : String × String × String × Int :=
  (s.id, s.tenantId, s.userId, s.minutesUsed)

/-- Applying a Prisma update input never moves the id, tenantId, userId
or minutesUsed columns. -/
theorem studentKeyProj_applyStudentData (d : StudentUpdateData) (s : Student) :
    studentKeyProj (applyStudentData d s) = studentKeyProj s := rfl

/-- The student-row update leaves the key columns of every row of the
store unchanged. -/
theorem updateStudentRow_keyProj (students : List Student) (id : String)
    (d : StudentUpdateData) :
    (updateStudentRow students id (applyStudentData d)).map studentKeyProj =
      students.map studentKeyProj := by
  induction students with
  | nil => rfl
  | cons s rest ih =>
      simp only [updateStudentRow, List.map_cons] at ih ⊢
      by_cases h : s.id = id
      · simp [h, ih, studentKeyProj_applyStudentData]
      · simp [h, ih]

/-- A successful update is findOne followed by the two conflict steps and
the row rewrite built from the dto: the returned row is the fetched row
with the update input applied, and the store is the row rewrite. -/
theorem update_ok_shape :
    ∀ (id : String) (dto : UpdateStudentDto) (tid : String)
      (students : List Student) (users : List User)
      (s1 : Student) (students2 : List Student) (users2 : List User) (s0 : Student),
      StudentsService.findOne id tid students = Except.ok s0 →
      StudentsService.update id dto tid students users = Except.ok (s1, students2, users2) →
      s1 = applyStudentData (buildStudentData dto) s0 ∧
      students2 = updateStudentRow students id (applyStudentData (buildStudentData dto)) := by
  intro id dto tid students users s1 students2 users2 s0 hfind hok
  unfold StudentsService.update at hok
  rw [hfind] at hok
  cases hE : StudentsService.updateEmailStep id dto students users with
  | error e => rw [hE] at hok; simp at hok
  | ok usersE =>
      rw [hE] at hok
      cases hN : StudentsService.updateNephCheck id dto students with
      | error e => rw [hN] at hok; simp at hok
      | ok u =>
          rw [hN] at hok
          simp only [Except.ok.injEq, Prod.mk.injEq] at hok
          obtain ⟨h1, h2, _⟩ := hok
          exact ⟨h1.symm, h2.symm⟩

/-- C9: a successful update never changes the tenantId, userId or
minutesUsed column of the stored student, for every dto value: the update
data is built exclusively from dto fields and the dto carries none of
these columns. -/
theorem c9_update_frame :
    ∀ (id : String) (dto : UpdateStudentDto) (tid : String)
      (students : List Student) (users : List User)
      (s1 : Student) (students2 : List Student) (users2 : List User) (s0 : Student),
      StudentsService.findOne id tid students = Except.ok s0 →
      StudentsService.update id dto tid students users = Except.ok (s1, students2, users2) →
      s1.tenantId = s0.tenantId ∧ s1.userId = s0.userId ∧ s1.minutesUsed = s0.minutesUsed ∧
      students2.map studentKeyProj = students.map studentKeyProj := by
  intro id dto tid students users s1 students2 users2 s0 hfind hok
  obtain ⟨h1, h2⟩ := update_ok_shape id dto tid students users s1 students2 users2 s0 hfind hok
  subst h1
  subst h2
  exact ⟨rfl, rfl, rfl, updateStudentRow_keyProj students id (buildStudentData dto)⟩

/-- C9 witness: the sample dto renames the student, moves its status and
purchased minutes, and the stored tenantId, userId and minutesUsed are
untouched. -/
theorem c9_witness :
    StudentsService.update "s1" sampleDto "tenant-a" [sampleStudent] [sampleUser] =
      Except.ok (applyStudentData (buildStudentData sampleDto) sampleStudent,
        [applyStudentData (buildStudentData sampleDto) sampleStudent], [sampleUser]) ∧
    (applyStudentData (buildStudentData sampleDto) sampleStudent).tenantId =
      sampleStudent.tenantId ∧
    (applyStudentData (buildStudentData sampleDto) sampleStudent).userId =
      sampleStudent.userId ∧
    (applyStudentData (buildStudentData sampleDto) sampleStudent).minutesUsed =
      sampleStudent.minutesUsed :=
  ⟨rfl,
    (c9_update_frame "s1" sampleDto "tenant-a" [sampleStudent] [sampleUser]
      (applyStudentData (buildStudentData sampleDto) sampleStudent)
      [applyStudentData (buildStudentData sampleDto) sampleStudent]
      [sampleUser] sampleStudent rfl rfl).1,
    (c9_update_frame "s1" sampleDto "tenant-a" [sampleStudent] [sampleUser]
      (applyStudentData (buildStudentData sampleDto) sampleStudent)
      [applyStudentData (buildStudentData sampleDto) sampleStudent]
      [sampleUser] sampleStudent rfl rfl).2.1,
    (c9_update_frame "s1" sampleDto "tenant-a" [sampleStudent] [sampleUser]
      (applyStudentData (buildStudentData sampleDto) sampleStudent)
      [applyStudentData (buildStudentData sampleDto) sampleStudent]
      [sampleUser] sampleStudent rfl rfl).2.2.1⟩
